import Mathlib

/- Verification development for mlops_unity_pipeline.py: a shallow embedding of
   the data model, the four-stage training-job executor
   (UnityMLOpsOrchestrator) and the cron scheduler (TrainingScheduler).

   Embedding conventions:
   - Timestamps are epoch seconds (Nat).
   - Python floats appear only as rendered text in the trainer YAML, so the two
     float-typed config fields are carried as their decimal-literal strings.
   - The workspace filesystem is an association list from workspace-relative
     path to file content, with overwrite-on-write semantics; the Vertex
     registry JSON file is carried structurally as a list of metadata records.
   - External tool invocations (Unity editor, mlagents-learn) are modelled by a
     ToolEnv oracle: whether each binary is installed and, when it is, the
     outcome the subprocess would produce (ok, or the error text raised for a
     nonzero exit).
   - The workspace carries a log of stage entries (instrumentation used only to
     state stage-sequencing properties). -/

namespace Mlops

structure UnityAssetSpec where
  asset_id : String
  name : String
  asset_type : String
  description : String
  observation_space : List (String × String) := []
  action_space : List (String × String) := []
deriving DecidableEq

structure RLTrainingConfig where
  algorithm : String := "PPO"
  max_steps : Nat := 1000000
  num_envs : Nat := 16
  time_scale : String := "20.0"
  batch_size : Nat := 1024
  buffer_size : Nat := 10240
  learning_rate : String := "0.0003"
  offline_dataset_path : Option String := none
deriving DecidableEq

structure TrainingJob where
  job_id : String
  asset_spec : UnityAssetSpec
  rl_config : RLTrainingConfig
deriving DecidableEq

structure TrainingResult where
  job_id : String
  status : String
  trained_model_path : Option String := none
  vertex_model_resource : Option String := none
  error : Option String := none
deriving DecidableEq

structure TrainingSchedule where
  schedule_id : String
  cron_expression : String
  asset_specs : List UnityAssetSpec
  rl_config : RLTrainingConfig
  enabled : Bool := true
deriving DecidableEq

/-- One entry of the vertex_registry.json metadata list written by
register_model_in_vertex_ai (the JSON file is modelled structurally). -/
structure VertexMetadata where
  model_display_name : String
  model_path : String
  job_id : String
  algorithm : String
deriving DecidableEq

/-- Association-map update with overwrite semantics (Python dict assignment /
Path.write_text overwriting an existing file). -/
def upsert {α : Type} (m : List (String × α)) (k : String) (v : α) : List (String × α) :=
  (k, v) :: m.filter (fun e => e.1 != k)

/-- Association-map lookup. -/
def lookup? {α : Type} (m : List (String × α)) (k : String) : Option α :=
  (m.find? (fun e => e.1 == k)).map (fun e => e.2)

/-- The orchestrator workspace state: files under the workspace root, the
structural content of vertex_registry.json, and the stage-entry log
(instrumentation for sequencing claims only). -/
structure Workspace where
  files : List (String × String) := []
  registry : List VertexMetadata := []
  log : List String := []
deriving DecidableEq

def Workspace.write (ws : Workspace) (p c : String) : Workspace :=
  { ws with files := upsert ws.files p c }

def Workspace.note (ws : Workspace) (tag : String) : Workspace :=
  { ws with log := ws.log ++ [tag] }

def hasFile (ws : Workspace) (p : String) : Bool :=
  (lookup? ws.files p).isSome

@[simp] theorem log_write (ws : Workspace) (p c : String) : (ws.write p c).log = ws.log := rfl

@[simp] theorem log_note (ws : Workspace) (tag : String) : (ws.note tag).log = ws.log ++ [tag] := rfl

@[simp] theorem files_note (ws : Workspace) (tag : String) : (ws.note tag).files = ws.files := rfl

/-- Oracle for the two external tool binaries: availability (command -v check
in _is_executable_available) and, when available, the subprocess outcome. -/
structure ToolEnv where
  unity_available : Bool
  unity_exit : Except String Unit
  mlagents_available : Bool
  mlagents_exit : Except String Unit

/-- _run_optional_command: skip silently when the binary is missing, otherwise
run it and raise RuntimeError (the error text) on nonzero exit. -/
def run_optional_command (available : Bool) (exitResult : Except String Unit) : Except String Unit :=
  if available then exitResult else Except.ok ()

/-- The generated C# script template (f-string in generate_unity_code). -/
def cs_template (spec : UnityAssetSpec) : String :=
  "using Unity.MLAgents;\nusing Unity.MLAgents.Actuators;\nusing Unity.MLAgents.Sensors;\n\npublic class "
    ++ spec.name ++ " : Agent\n\x7b\n    // Auto-generated from spec: " ++ spec.description
    ++ "\n    public override void Initialize() \x7b \x7d\n    public override void CollectObservations(VectorSensor sensor) \x7b \x7d\n    public override void OnActionReceived(ActionBuffers actions) \x7b \x7d\n\x7d\n"

/-- Stage 1, generate_unity_code: writes generated_scripts/<name>.cs and
returns its path. Total: its only failure modes are OS-level I/O errors,
which the filesystem model treats as always succeeding. -/
def generate_unity_code (spec : UnityAssetSpec) (ws : Workspace) : Workspace × String :=
  let ws1 := ws.note "generate"
  let script_path := "generated_scripts/" ++ spec.name ++ ".cs"
  (ws1.write script_path (cs_template spec), script_path)

/-- Stage 2, build_unity_environment: builds builds/<asset_id>/<name> via the
optional Unity invocation; the script path only feeds the external command
line. -/
def build_unity_environment (env : ToolEnv) (spec : UnityAssetSpec)
    (_script_path : String) (ws : Workspace) : Workspace × Except String String :=
  let ws1 := ws.note "build"
  let output_binary := "builds/" ++ spec.asset_id ++ "/" ++ spec.name
  match run_optional_command env.unity_available env.unity_exit with
  | Except.error e => (ws1, Except.error e)
  | Except.ok _ => (ws1, Except.ok output_binary)

/-- _build_trainer_config_yaml. -/
def build_trainer_config_yaml (spec : UnityAssetSpec) (cfg : RLTrainingConfig) : String :=
  let offline_line := match cfg.offline_dataset_path with
    | some p => "    demo_path: " ++ p ++ "\n"
    | none => ""
  "behaviors:\n  " ++ spec.name ++ ":\n    trainer_type: " ++ cfg.algorithm.toLower
    ++ "\n    max_steps: " ++ toString cfg.max_steps
    ++ "\n    hyperparameters:\n      batch_size: " ++ toString cfg.batch_size
    ++ "\n      buffer_size: " ++ toString cfg.buffer_size
    ++ "\n      learning_rate: " ++ cfg.learning_rate ++ "\n" ++ offline_line

/-- Stage 3, train_with_mlagents: writes the trainer YAML, runs the optional
mlagents-learn invocation (the YAML write persists even when that raises),
then ensures training_runs/<asset_id>/<asset_id>.onnx exists (writing an empty
placeholder if not) and returns that path. -/
def train_with_mlagents (env : ToolEnv) (spec : UnityAssetSpec) (cfg : RLTrainingConfig)
    (_build_path : String) (ws : Workspace) : Workspace × Except String String :=
  let ws1 := ws.note "train"
  let run_dir := "training_runs/" ++ spec.asset_id
  let trainer_yaml := run_dir ++ "/trainer_config.yaml"
  let ws2 := ws1.write trainer_yaml (build_trainer_config_yaml spec cfg)
  match run_optional_command env.mlagents_available env.mlagents_exit with
  | Except.error e => (ws2, Except.error e)
  | Except.ok _ =>
    let model_path := run_dir ++ "/" ++ spec.asset_id ++ ".onnx"
    let ws3 := if hasFile ws2 model_path then ws2 else ws2.write model_path ""
    (ws3, Except.ok model_path)

/-- Stage 4, register_model_in_vertex_ai: appends a metadata record to
vertex_registry.json and returns the registry resource string, whose display
name is unity-<asset name>-<wall-clock stamp> (strftime to seconds, passed in
as stamp). Total in the structural-registry model. -/
def register_model_in_vertex_ai (job : TrainingJob) (model_path : String)
    (stamp : String) (ws : Workspace) : Workspace × String :=
  let ws1 := ws.note "register"
  let model_display_name := "unity-" ++ job.asset_spec.name ++ "-" ++ stamp
  let metadata : VertexMetadata :=
    { model_display_name := model_display_name, model_path := model_path,
      job_id := job.job_id, algorithm := job.rl_config.algorithm }
  ({ ws1 with registry := ws1.registry ++ [metadata] },
   "local://vertex-registry/" ++ model_display_name)

/-- execute_training_job: the four stages in sequence inside try/except — any
stage error is caught and becomes a failed-status result carrying the error
text; the function itself is total (never raises outward). -/
def execute_training_job (env : ToolEnv) (stamp : String) (job : TrainingJob)
    (ws : Workspace) : Workspace × TrainingResult :=
  let st1 := generate_unity_code job.asset_spec ws
  match build_unity_environment env job.asset_spec st1.2 st1.1 with
  | (ws2, Except.error e) =>
    (ws2, { job_id := job.job_id, status := "failed", error := some e })
  | (ws2, Except.ok build_path) =>
    match train_with_mlagents env job.asset_spec job.rl_config build_path ws2 with
    | (ws3, Except.error e) =>
      (ws3, { job_id := job.job_id, status := "failed", error := some e })
    | (ws3, Except.ok model_path) =>
      let st4 := register_model_in_vertex_ai job model_path stamp ws3
      (st4.1, { job_id := job.job_id, status := "success",
                trained_model_path := some model_path,
                vertex_model_resource := some st4.2 })

/-- asyncio.gather fan-out over independent job tasks: each job is its own
task against the shared initial workspace; results are collected in order.
(Concurrent interleaving of workspace writes is not represented; each task
observes the initial state.) -/
def gather_execute (env : ToolEnv) (stamp : String) (ws : Workspace)
    (jobs : List TrainingJob) : List TrainingResult :=
  jobs.map (fun j => (execute_training_job env stamp j ws).2)

/-- The @-keywords of the croniter dependency's expression grammar. -/
def cron_keywords : List String :=
  ["@yearly", "@annually", "@monthly", "@weekly", "@daily", "@midnight", "@hourly"]

/-- Splits a character list into maximal space-free words. -/
def fields_aux : List Char → List Char → List (List Char)
  | [], acc => if acc.isEmpty then [] else [acc.reverse]
  | c :: rest, acc =>
    if c = ' ' then
      if acc.isEmpty then fields_aux rest [] else acc.reverse :: fields_aux rest []
    else fields_aux rest (c :: acc)

/-- Model of the croniter dependency's expression screen: an expression is one
of the supported @-keywords, or has 5 or 6 whitespace-separated fields.
Per-field syntax validation is not modelled, so this over-approximates what
croniter accepts; rejection here therefore implies croniter raises
CroniterBadCronError on the expression. -/
def croniter_accepts (expr : String) : Bool :=
  cron_keywords.contains expr ||
    (let fields := fields_aux expr.toList []
     fields.length == 5 || fields.length == 6)

/-- TrainingScheduler state: the schedule map and the _next_run map of
computed next fire times (epoch seconds). -/
structure SchedulerState where
  schedules : List (String × TrainingSchedule) := []
  next_run : List (String × Nat) := []
deriving DecidableEq

/-- TrainingScheduler.add_schedule: stores the schedule and computes
_next_run[id] = croniter(expr, now).get_next(). The croniter constructor
raises on an expression failing the grammar screen (modelled as an error);
cron_next is the library's next-fire oracle. -/
def add_schedule (cron_next : String → Nat → Nat) (st : SchedulerState)
    (schedule : TrainingSchedule) (now : Nat) : Except String SchedulerState :=
  if croniter_accepts schedule.cron_expression then
    Except.ok
      { schedules := upsert st.schedules schedule.schedule_id schedule,
        next_run := upsert st.next_run schedule.schedule_id
          (cron_next schedule.cron_expression now) }
  else Except.error ("invalid cron expression: " ++ schedule.cron_expression)

/-- One due evaluation of run_forever's poll loop for one schedule: fires iff
the schedule is present, enabled, and now has reached its stored _next_run. -/
def tick_due (st : SchedulerState) (schedule_id : String) (now : Nat) : Bool :=
  match lookup? st.schedules schedule_id with
  | none => false
  | some s =>
    s.enabled &&
      (match lookup? st.next_run schedule_id with
       | some due => decide (due ≤ now)
       | none => false)

/-- The jobs _run_scheduled_jobs constructs for one firing schedule: one per
asset spec, with job_id = "<schedule_id>-<idx>-<epoch>" where idx is the
1-based enumeration index of the asset spec in the schedule. -/
def scheduled_jobs (schedule : TrainingSchedule) (now : Nat) : List TrainingJob :=
  schedule.asset_specs.enum.map (fun p =>
    { job_id := schedule.schedule_id ++ "-" ++ toString (p.1 + 1) ++ "-" ++ toString now,
      asset_spec := p.2, rl_config := schedule.rl_config })

/-- _run_scheduled_jobs: build the jobs and gather their executions. The
schedule object itself is not modified. -/
def run_scheduled_jobs (env : ToolEnv) (stamp : String) (schedule : TrainingSchedule)
    (now : Nat) (ws : Workspace) : List TrainingResult :=
  gather_execute env stamp ws (scheduled_jobs schedule now)

/-- croniter's get_next for the concrete daily-midnight expression
"0 0 * * *" over epoch seconds: the first midnight strictly after t. -/
def daily_midnight_next (t : Nat) : Nat := (t / 86400 + 1) * 86400

/-- Following the spec's words: a JobResult "references" an artifact path p
when one of its reference-valued fields carries p. The source's
TrainingResult has exactly two such fields. -/
def references_artifact (r : TrainingResult) (p : String) : Bool :=
  r.trained_model_path == some p || r.vertex_model_resource == some p

/-- Following the spec's words: the success contract "populates references
for all four artifacts" — the generated script, the build artifact, the
trained model and the registry record. -/
def references_all_four (r : TrainingResult)
    (script_ref build_ref model_ref registry_ref : String) : Bool :=
  references_artifact r script_ref && references_artifact r build_ref &&
    references_artifact r model_ref && references_artifact r registry_ref

/-- Modelled from the spec: the Schedule record of the last_run-bearing
scheduler variant (the one exercised by the unit tests through last_run_utc,
run_once and the @every dialect) is not among the sources; per spec it is
the cron-addressable recurrence rule with an enabled flag and a nullable
last_run timestamp. -/
structure SpecSchedule where
  schedule_id : String
  cron_expression : String
  asset_specs : List UnityAssetSpec := []
  rl_config : RLTrainingConfig := {}
  enabled : Bool := true
  last_run : Option Nat := none
deriving DecidableEq

/-- Modelled from the spec: seconds per unit of the fallback interval
dialect, unit in seconds, minutes, hours, days. -/
def unit_seconds : Char → Option Nat
  | 's' => some 1
  | 'm' => some 60
  | 'h' => some 3600
  | 'd' => some 86400
  | _ => none

/-- Reads a nonempty all-digit character list as a number. -/
def digits_to_nat? (cs : List Char) : Option Nat :=
  if cs.isEmpty then none
  else
    cs.foldl
      (fun acc c => acc.bind (fun a => if c.isDigit then some (a * 10 + (c.toNat - 48)) else none))
      (some 0)

/-- Modelled from the spec: the lightweight fallback grammar
"@every N unit" parsed to a fixed interval in seconds. -/
def parse_every (expr : String) : Option Nat :=
  let cs := expr.toList
  if cs.take 7 = ['@', 'e', 'v', 'e', 'r', 'y', ' '] then
    let rest := cs.drop 7
    match rest.getLast? with
    | none => none
    | some u =>
      match digits_to_nat? rest.dropLast, unit_seconds u with
      | some n, some su => some (n * su)
      | _, _ => none
  else none

/-- Modelled from the spec: is_due(schedule, now) — false when disabled, true
when never fired, otherwise the next fire time computed from last_run has
been reached; the interval dialect uses last_run + interval, the cron dialect
the evaluator oracle cron_next_fire; an expression matching neither dialect
is a fatal configuration error. -/
def spec_is_due (cron_next_fire : String → Nat → Nat) (s : SpecSchedule)
    (now : Nat) : Except String Bool :=
  if s.enabled = false then Except.ok false
  else
    match s.last_run with
    | none => Except.ok true
    | some lr =>
      match parse_every s.cron_expression with
      | some interval => Except.ok (decide (lr + interval ≤ now))
      | none =>
        if croniter_accepts s.cron_expression then
          Except.ok (decide (cron_next_fire s.cron_expression lr ≤ now))
        else Except.error "unparseable schedule expression"

/-- Modelled from the spec: the per-schedule effect of a run_once tick — a
due schedule has last_run set to now after its jobs complete; a non-due
schedule, and a schedule whose due evaluation fails (configuration error),
are left unchanged. -/
def spec_fire_update (cron_next_fire : String → Nat → Nat) (now : Nat)
    (s : SpecSchedule) : SpecSchedule :=
  match spec_is_due cron_next_fire s now with
  | Except.ok true => { s with last_run := some now }
  | _ => s

/-- Modelled from the spec: run_once(now)'s effect on schedule state — every
schedule is updated independently by spec_fire_update; job dispatch reuses
the executor and does not touch schedule state, so it is elided here. -/
def spec_run_once (cron_next_fire : String → Nat → Nat) (now : Nat)
    (schedules : List SpecSchedule) : List SpecSchedule :=
  schedules.map (spec_fire_update cron_next_fire now)

/-- Modelled from the spec: add_schedule upserts by schedule_id with
overwrite semantics on a duplicate id. -/
def spec_add_schedule (schedules : List SpecSchedule) (s : SpecSchedule) :
    List SpecSchedule :=
  s :: schedules.filter (fun t => t.schedule_id != s.schedule_id)

/-- Modelled from the spec: remove_schedule, a no-op when absent. -/
def spec_remove_schedule (schedules : List SpecSchedule) (schedule_id : String) :
    List SpecSchedule :=
  schedules.filter (fun t => t.schedule_id != schedule_id)

/-- Modelled from the spec: the explicit enable/disable operation. -/
def spec_set_enabled (schedules : List SpecSchedule) (schedule_id : String)
    (b : Bool) : List SpecSchedule :=
  schedules.map (fun t => if t.schedule_id == schedule_id then { t with enabled := b } else t)

/-- The last_run recorded for a schedule id, when the schedule is present. -/
def last_run_of (schedules : List SpecSchedule) (schedule_id : String) : Option Nat :=
  (schedules.find? (fun t => t.schedule_id == schedule_id)).bind (fun t => t.last_run)

/- Concrete fixtures (mirroring the repository's unit-test data). -/

def spec_a1 : UnityAssetSpec :=
  { asset_id := "a1", name := "SimpleAgent", asset_type := "behavior",
    description := "Reach target" }

def spec_a2 : UnityAssetSpec :=
  { asset_id := "a2", name := "NightAgent", asset_type := "behavior",
    description := "Patrol" }

def job1 : TrainingJob := { job_id := "job-1", asset_spec := spec_a1, rl_config := {} }

def job2 : TrainingJob := { job_id := "job-2", asset_spec := spec_a1, rl_config := {} }

/-- The environment of a machine without Unity or ML-Agents installed: both
invocations are skipped and the pipeline succeeds with placeholders. -/
def tools_absent : ToolEnv :=
  { unity_available := false, unity_exit := Except.ok (),
    mlagents_available := false, mlagents_exit := Except.ok () }

def daily_sched : TrainingSchedule :=
  { schedule_id := "daily", cron_expression := "0 0 * * *",
    asset_specs := [spec_a1], rl_config := {} }

def every_sched : TrainingSchedule :=
  { schedule_id := "nightly", cron_expression := "@every 1h",
    asset_specs := [spec_a2], rl_config := {} }

def sched_s100 : SpecSchedule :=
  { schedule_id := "s", cron_expression := "@every 1h", last_run := some 100 }

def sched_s50 : SpecSchedule :=
  { schedule_id := "s", cron_expression := "@every 1h", last_run := some 50 }

def sched_w : SpecSchedule :=
  { schedule_id := "w", cron_expression := "@every 1s", last_run := some 5 }

/-- C1 counterexample: on a fully successful concrete run the generated
script artifact exists in the final workspace (and a build artifact
reference was produced), yet the returned TrainingResult does not reference
all four artifacts: its only reference-valued fields are the trained model
path and the registry resource, so the generated-script and build-artifact
references are absent. -/
theorem execute_success_lacks_script_reference :
    (execute_training_job tools_absent "20260101120000" job1 {}).2.status = "success" ∧
    lookup? (execute_training_job tools_absent "20260101120000" job1 {}).1.files
      "generated_scripts/SimpleAgent.cs" = some (cs_template spec_a1) ∧
    references_all_four (execute_training_job tools_absent "20260101120000" job1 {}).2
      "generated_scripts/SimpleAgent.cs" "builds/a1/SimpleAgent"
      "training_runs/a1/a1.onnx"
      "local://vertex-registry/unity-SimpleAgent-20260101120000" = false := by
  refine ⟨rfl, rfl, rfl⟩

/-- C1 (amended): execute_training_job is total — any stage failure is caught
— and the result always carries the job's id; on success the result
populates the two artifact references its type carries (trained model path
and registry resource) with no error, and on failure the status is "failed"
with the error description populated and both artifact references empty. -/
theorem execute_training_job_result_shape (env : ToolEnv) (stamp : String)
    (job : TrainingJob) (ws : Workspace) :
    (execute_training_job env stamp job ws).2.job_id = job.job_id ∧
    (((execute_training_job env stamp job ws).2.status = "success" ∧
      (execute_training_job env stamp job ws).2.trained_model_path.isSome = true ∧
      (execute_training_job env stamp job ws).2.vertex_model_resource.isSome = true ∧
      (execute_training_job env stamp job ws).2.error = none) ∨
     ((execute_training_job env stamp job ws).2.status = "failed" ∧
      (execute_training_job env stamp job ws).2.error.isSome = true ∧
      (execute_training_job env stamp job ws).2.trained_model_path = none ∧
      (execute_training_job env stamp job ws).2.vertex_model_resource = none)) := by
  cases hu : run_optional_command env.unity_available env.unity_exit with
  | error e =>
    simp [execute_training_job, generate_unity_code, build_unity_environment, hu]
  | ok u =>
    cases hm : run_optional_command env.mlagents_available env.mlagents_exit with
    | error e =>
      simp [execute_training_job, generate_unity_code, build_unity_environment,
        train_with_mlagents, hu, hm]
    | ok v =>
      simp [execute_training_job, generate_unity_code, build_unity_environment,
        train_with_mlagents, register_model_in_vertex_ai, hu, hm]

/-- C2: the source scheduler has no last_run notion — dueness is computed
from the next cron fire time after registration, so an enabled schedule that
has never fired is not due on the first poll tick. Concretely, a
daily-midnight schedule ("0 0 * * *") added at epoch 43200 (noon) gets
_next_run = 86400 and is not due at the first tick at epoch 43230. -/
theorem never_fired_schedule_not_due_on_first_tick :
    (add_schedule (fun _ t => daily_midnight_next t) {} daily_sched 43200).map
      (fun st => tick_due st "daily" 43230) = Except.ok false ∧
    daily_sched.enabled = true := by
  refine ⟨rfl, rfl⟩

/-- C3: the source add_schedule feeds every expression straight to the cron
evaluator, which rejects the fallback dialect: registering a schedule with
expression "@every 1h" fails with a parse error instead of installing an
interval schedule. -/
theorem add_schedule_rejects_every_dialect :
    add_schedule (fun _ t => t + 1) {} every_sched 0 =
      Except.error "invalid cron expression: @every 1h" ∧
    croniter_accepts "@every 1h" = false := by
  refine ⟨rfl, by decide⟩

/-- C4: the job ids built by _run_scheduled_jobs use the 1-based enumeration
index of the asset spec, not the asset's asset_id: schedule "nightly" with
the single asset a2 fired at epoch 1000 yields job id "nightly-1-1000",
which does not carry the "nightly-a2-" form the claim (and the unit test)
expects; and firing records no last-fired time (the source schedule record
has no such field — the scheduler stores a next fire time instead). -/
theorem scheduled_job_id_uses_index_not_asset_id :
    (scheduled_jobs every_sched 1000).map (fun j => j.job_id) = ["nightly-1-1000"] ∧
    List.isPrefixOf "nightly-a2-".toList "nightly-1-1000".toList = false := by
  refine ⟨rfl, by decide⟩

/-- C5: the trained-model artifact path depends only on the asset id —
training_runs/<asset_id>/<asset_id>.onnx — so two jobs with distinct job ids
over the same asset produce the same path, not distinct ones. -/
theorem trained_model_path_ignores_job_id :
    (execute_training_job tools_absent "s" job1 {}).2.trained_model_path =
      some "training_runs/a1/a1.onnx" ∧
    (execute_training_job tools_absent "s" job2 {}).2.trained_model_path =
      some "training_runs/a1/a1.onnx" ∧
    job1.job_id ≠ job2.job_id := by
  refine ⟨rfl, rfl, by decide⟩

/-- C6: the registry identifier is built from the asset name and the
second-resolution wall-clock stamp only — no job id, no random
disambiguator — so registering the same job twice within one wall-clock
second (the second call on the state left by the first) returns identical
registry identifiers. -/
theorem registry_id_collides_for_duplicate_submission :
    (register_model_in_vertex_ai job1 "training_runs/a1/a1.onnx" "20260101120000"
      (register_model_in_vertex_ai job1 "training_runs/a1/a1.onnx" "20260101120000" {}).1).2 =
      (register_model_in_vertex_ai job1 "training_runs/a1/a1.onnx" "20260101120000" {}).2 ∧
    (register_model_in_vertex_ai job1 "training_runs/a1/a1.onnx" "20260101120000" {}).2 =
      "local://vertex-registry/unity-SimpleAgent-20260101120000" := ⟨rfl, rfl⟩

/-- Helper: find? over a map whose function is transparent to the predicate. -/
theorem find?_map_congr {α β : Type} (f : α → β) (l : List α) (p : β → Bool)
    (q : α → Bool) (h : ∀ a, p (f a) = q a) :
    (l.map f).find? p = (l.find? q).map f := by
  induction l with
  | nil => rfl
  | cons a tl ih =>
    simp only [List.map_cons, List.find?_cons, h a]
    cases hq : q a <;> simp [ih]

/-- Firing preserves a schedule's identity. -/
theorem fire_update_id (cnf : String → Nat → Nat) (now : Nat) (s : SpecSchedule) :
    (spec_fire_update cnf now s).schedule_id = s.schedule_id := by
  unfold spec_fire_update
  cases spec_is_due cnf s now with
  | error e => rfl
  | ok b => cases b <;> rfl

/-- A schedule with last_run set that is due at time now fired no earlier
than its recorded last_run, assuming the cron evaluator returns fire times
at or after the timestamp it is given. -/
theorem spec_is_due_ok_true_le (cnf : String → Nat → Nat)
    (hnf : ∀ e t, t ≤ cnf e t) (s : SpecSchedule) (now t : Nat)
    (hlr : s.last_run = some t) (hd : spec_is_due cnf s now = Except.ok true) :
    t ≤ now := by
  unfold spec_is_due at hd
  by_cases he : s.enabled = false
  · simp only [if_pos he] at hd
    exact absurd hd (by simp)
  · simp only [if_neg he, hlr] at hd
    cases hp : parse_every s.cron_expression with
    | some interval =>
      simp only [hp, Except.ok.injEq, decide_eq_true_eq] at hd
      omega
    | none =>
      simp only [hp] at hd
      split_ifs at hd with hc
      simp only [Except.ok.injEq, decide_eq_true_eq] at hd
      exact le_trans (hnf s.cron_expression t) hd

/-- Firing never moves one schedule's last_run backwards, assuming the cron
evaluator returns fire times at or after the timestamp it is given. -/
theorem fire_update_mono (cnf : String → Nat → Nat) (hnf : ∀ e t, t ≤ cnf e t)
    (now : Nat) (s : SpecSchedule) (t t' : Nat) (hlr : s.last_run = some t)
    (hlr' : (spec_fire_update cnf now s).last_run = some t') : t ≤ t' := by
  unfold spec_fire_update at hlr'
  rcases hd : spec_is_due cnf s now with e | b
  · rw [hd] at hlr'
    rw [hlr] at hlr'
    exact le_of_eq (Option.some.inj hlr')
  · rw [hd] at hlr'
    cases b with
    | false =>
      rw [hlr] at hlr'
      exact le_of_eq (Option.some.inj hlr')
    | true =>
      have ht' : t' = now := (Option.some.inj hlr').symm
      subst ht'
      exact spec_is_due_ok_true_le cnf hnf s t' t hlr hd

/-- C7 counterexample: add_schedule has overwrite semantics by the spec, so
upserting a caller-supplied schedule under an existing id replaces the stored
record wholesale — here moving the stored last_run from 100 back to 50. -/
theorem add_schedule_can_move_last_run_backwards :
    last_run_of [sched_s100] "s" = some 100 ∧
    last_run_of (spec_add_schedule [sched_s100] sched_s50) "s" = some 50 ∧
    ¬ (100 ≤ 50) := by
  refine ⟨rfl, rfl, by omega⟩

/-- C7 (amended): for the spec-modelled last_run-bearing scheduler, firing
(run_once), enable/disable and remove never move a stored schedule's
last_run backwards; add_schedule is excluded because its overwrite semantics
replaces the stored record with the caller's. The hypothesis states the cron
evaluator's contract: a next fire time is never before the timestamp it is
computed from. -/
theorem spec_scheduler_last_run_monotone (cnf : String → Nat → Nat)
    (hnf : ∀ e t, t ≤ cnf e t) (now : Nat) (schedules : List SpecSchedule)
    (sid : String) (t t' : Nat) :
    (last_run_of schedules sid = some t →
      last_run_of (spec_run_once cnf now schedules) sid = some t' → t ≤ t') ∧
    (∀ b, last_run_of schedules sid = some t →
      last_run_of (spec_set_enabled schedules sid b) sid = some t' → t ≤ t') ∧
    (last_run_of schedules sid = some t →
      last_run_of (spec_remove_schedule schedules sid) sid = some t' → t ≤ t') := by
  refine ⟨?_, ?_, ?_⟩
  · intro h1 h2
    unfold last_run_of at h1 h2
    unfold spec_run_once at h2
    rw [find?_map_congr (spec_fire_update cnf now) schedules _
      (fun u => u.schedule_id == sid) (fun a => by rw [fire_update_id])] at h2
    cases hf : schedules.find? (fun u => u.schedule_id == sid) with
    | none => rw [hf] at h1; exact absurd h1 (by simp)
    | some s0 =>
      rw [hf] at h1 h2
      have h1' : s0.last_run = some t := h1
      have h2' : (spec_fire_update cnf now s0).last_run = some t' := h2
      exact fire_update_mono cnf hnf now s0 t t' h1' h2'
  · intro b h1 h2
    unfold last_run_of at h1 h2
    unfold spec_set_enabled at h2
    rw [find?_map_congr (fun u => if u.schedule_id == sid then { u with enabled := b } else u)
      schedules _ (fun u => u.schedule_id == sid)
      (fun a => by by_cases ha : a.schedule_id == sid <;> simp [ha])] at h2
    cases hf : schedules.find? (fun u => u.schedule_id == sid) with
    | none => rw [hf] at h1; exact absurd h1 (by simp)
    | some s0 =>
      rw [hf] at h1 h2
      have h1' : s0.last_run = some t := h1
      have h2' : (if s0.schedule_id == sid then { s0 with enabled := b } else s0).last_run = some t' := h2
      by_cases ha : s0.schedule_id == sid
      · rw [if_pos ha] at h2'
        exact le_of_eq (Option.some.inj (h1'.symm.trans h2'))
      · rw [if_neg ha] at h2'
        exact le_of_eq (Option.some.inj (h1'.symm.trans h2'))
  · intro h1 h2
    unfold last_run_of spec_remove_schedule at h2
    rw [List.find?_eq_none.mpr ?_] at h2
    · exact absurd h2 (by simp)
    · intro x hx
      rcases List.mem_filter.mp hx with ⟨_, hx2⟩
      simpa using hx2

/-- Witness for the amended C7 theorem at a concrete scheduler: a schedule
with last_run 5 and interval expression "@every 1s" fires at tick time 10,
and monotonicity gives 5 ≤ 10. -/
theorem spec_scheduler_last_run_monotone_witness : (5 : Nat) ≤ 10 :=
  (spec_scheduler_last_run_monotone (fun _ t => t + 1) (fun _ t => Nat.le_succ t)
    10 [sched_w] "w" 5 10).1 (by decide) (by decide)

@[simp] theorem log_ite (c : Prop) [Decidable c] (a b : Workspace) :
    (if c then a else b).log = if c then a.log else b.log := by
  split <;> rfl

/-- C8: stages within one job run strictly sequentially and a stage failure
aborts the rest of the job: the stage-entry trace appended by one run is, in
order, generate-build-train-register on success, and a strict prefix ending
at the failing stage on failure (later stages never start). Moreover a
gathered batch is isolated per job: the i-th collected result is exactly the
execution of the i-th job alone, so no job's failure aborts or alters
another job's result. -/
theorem execute_stages_sequential_and_jobs_isolated (env : ToolEnv)
    (stamp : String) (job : TrainingJob) (ws : Workspace) :
    (((execute_training_job env stamp job ws).1.log =
        ws.log ++ ["generate", "build", "train", "register"] ∧
      (execute_training_job env stamp job ws).2.status = "success") ∨
     ((execute_training_job env stamp job ws).1.log = ws.log ++ ["generate", "build"] ∧
      (execute_training_job env stamp job ws).2.status = "failed") ∨
     ((execute_training_job env stamp job ws).1.log =
        ws.log ++ ["generate", "build", "train"] ∧
      (execute_training_job env stamp job ws).2.status = "failed")) ∧
    (∀ jobs : List TrainingJob, ∀ i : Nat,
      (gather_execute env stamp ws jobs)[i]? =
        (jobs[i]?).map (fun j => (execute_training_job env stamp j ws).2)) := by
  constructor
  · cases hu : run_optional_command env.unity_available env.unity_exit with
    | error e =>
      refine Or.inr (Or.inl ?_)
      simp [execute_training_job, generate_unity_code, build_unity_environment, hu,
        List.append_assoc]
    | ok u =>
      cases hm : run_optional_command env.mlagents_available env.mlagents_exit with
      | error e =>
        refine Or.inr (Or.inr ?_)
        simp [execute_training_job, generate_unity_code, build_unity_environment,
          train_with_mlagents, hu, hm, List.append_assoc]
      | ok v =>
        refine Or.inl ?_
        simp [execute_training_job, generate_unity_code, build_unity_environment,
          train_with_mlagents, register_model_in_vertex_ai, hu, hm, List.append_assoc]
  · intro jobs i
    simp [gather_execute]

/-- Overwriting the same key twice leaves the map as after the second write
alone. -/
theorem upsert_upsert {α : Type} (m : List (String × α)) (k : String) (v v' : α) :
    upsert (upsert m k v) k v' = upsert m k v' := by
  simp [upsert, List.filter_cons, List.filter_filter, Bool.and_self]

/-- C9: generation is idempotent by asset name — two runs over specs sharing
a name write the same script path (the second returns the same path and
overwrites rather than erroring, generation being total), and the resulting
file state equals that of a single run of the second spec. -/
theorem generate_unity_code_idempotent_by_name (s1 s2 : UnityAssetSpec)
    (ws : Workspace) (h : s1.name = s2.name) :
    (generate_unity_code s2 (generate_unity_code s1 ws).1).2 =
      (generate_unity_code s1 ws).2 ∧
    (generate_unity_code s2 (generate_unity_code s1 ws).1).1.files =
      (generate_unity_code s2 ws).1.files := by
  constructor
  · unfold generate_unity_code
    simp [h]
  · unfold generate_unity_code
    simp only [Workspace.write, Workspace.note, h]
    exact upsert_upsert ws.files ("generated_scripts/" ++ s2.name ++ ".cs") _ _

/-- Witness for C9 at a concrete spec and the empty workspace. -/
theorem generate_unity_code_idempotent_by_name_witness :
    (generate_unity_code spec_a1 (generate_unity_code spec_a1 ({} : Workspace)).1).2 =
      (generate_unity_code spec_a1 ({} : Workspace)).2 ∧
    (generate_unity_code spec_a1 (generate_unity_code spec_a1 ({} : Workspace)).1).1.files =
      (generate_unity_code spec_a1 ({} : Workspace)).1.files :=
  generate_unity_code_idempotent_by_name spec_a1 spec_a1 {} rfl

/-- C10: on both the success and the failure branch, the TrainingResult
returned by execute_training_job carries the input job's job_id. -/
theorem execute_training_job_preserves_job_id (env : ToolEnv) (stamp : String)
    (job : TrainingJob) (ws : Workspace) :
    (execute_training_job env stamp job ws).2.job_id = job.job_id := by
  cases hu : run_optional_command env.unity_available env.unity_exit with
  | error e =>
    simp [execute_training_job, generate_unity_code, build_unity_environment, hu]
  | ok u =>
    cases hm : run_optional_command env.mlagents_available env.mlagents_exit with
    | error e =>
      simp [execute_training_job, generate_unity_code, build_unity_environment,
        train_with_mlagents, hu, hm]
    | ok v =>
      simp [execute_training_job, generate_unity_code, build_unity_environment,
        train_with_mlagents, register_model_in_vertex_ai, hu, hm]

end Mlops

